import Mathlib

/-!
Verification development for the Bank-analysis repository
(`dashboard.py` and `export_views.py`).

The two Python entry points are shallowly embedded as pure Lean
functions over an explicit environment (`Env`) describing the external
SQLite database, and they produce an explicit trace of observable
effects (`Event`): connection opens/closes, queries, printed lines,
CSV files written, Streamlit error/info boxes, rendered panels, and
`st.stop`.

Tabular results (pandas DataFrames) are modelled as `Table`: an ordered
list of column names plus ordered rows.  Cell values are modelled by
their textual rendering (the form in which they appear in a CSV file
or a displayed table); the numeric KPI cells used by the dashboard are
recovered from that rendering with small decimal parsers, and the KPI
format strings themselves are modelled over exact integers/rationals
(every concrete value considered is exactly representable as a binary
double, so Python's float formatting coincides with correctly-rounded
formatting of the exact value, with ties resolved to even).
-/

/-- A tabular query result (pandas `DataFrame`): ordered column names and
ordered rows; each cell is its textual rendering. -/
structure Table where
  cols : List String
  rows : List (List String)
deriving DecidableEq, Repr

/-- `pd.DataFrame()`: the empty table returned by `load_view` on failure. -/
def Table.emptyTable : Table := ⟨[], []⟩

/-- `df.empty`: true when the frame has no items (no rows or no columns). -/
def Table.isEmpty (t : Table) : Bool := t.rows.isEmpty || t.cols.isEmpty

/-- Faults raised by the data-access layer (`sqlite3` / `pandas`):
`operational` is `sqlite3.OperationalError` (in particular a missing view,
message `no such table: ...`); `other` is any other exception, carrying
its rendered message `str(e)`. -/
inductive QueryError where
  | operational (msg : String)
  | other (msg : String)
deriving DecidableEq, Repr

/-- The external world both scripts run against: whether `bank.db` exists
on disk, whether `sqlite3.connect` itself raises, the views present in the
database, and views whose query raises an uncategorized fault. -/
structure Env where
  dbExists : Bool
  connectFails : Bool
  connectMsg : String
  views : String → Option Table
  faulty : String → Option String

/-- Semantics of `pd.read_sql_query("SELECT * FROM <v>", conn)`.
When `bank.db` is absent, `sqlite3.connect` creates an empty database, so
every view query fails with `OperationalError: no such table: <v>`; a view
absent from an existing database fails the same way; a faulty view raises
an uncategorized exception; otherwise the view's table is returned. -/
def runQuery (env : Env) (v : String) : Except QueryError Table :=
  if env.dbExists = false then
    .error (.operational ("no such table: " ++ v))
  else
    match env.faulty v with
    | some msg => .error (.other msg)
    | none =>
      match env.views v with
      | some t => .ok t
      | none => .error (.operational ("no such table: " ++ v))

/-- Observable effects of the two scripts. -/
inductive Event where
  | openConn
  | closeConn
  | query (view : String)
  | printLine (s : String)
  | mkdir (dir : String)
  | writeCsv (path : String) (content : String)
  | errorMsg (s : String)
  | infoMsg (s : String)
  | titleEvt (s : String)
  | headerEvt (s : String)
  | subheaderEvt (s : String)
  | sidebarHeader (s : String)
  | markdownEvt (s : String)
  | metric (label : String) (value : String)
  | chart (titleStr : String)
  | dataframePanel (viewName : String) (t : Table)
  | selectbox (chosen : String)
  | downloadButton (fileName : String) (content : String)
  | stopEv
deriving DecidableEq, Repr

/-- Number of occurrences of one event in a trace. -/
def countEv (e : Event) (evs : List Event) : Nat :=
  (evs.filter (fun x => x = e)).length

/-- Is the event a database query? -/
def isQuery : Event → Bool
  | .query _ => true
  | _ => false

/-- Is the event the creation of a CSV file? -/
def isWrite : Event → Bool
  | .writeCsv _ _ => true
  | _ => false

/-- Is the event a directory creation? -/
def isMkdir : Event → Bool
  | .mkdir _ => true
  | _ => false

/-- Is the event a rendered dashboard panel (metric, chart or table)? -/
def isPanel : Event → Bool
  | .metric _ _ => true
  | .chart _ => true
  | .dataframePanel _ _ => true
  | _ => false

/-- Is the event a Streamlit error box (`st.error`)? -/
def isErrorBox : Event → Bool
  | .errorMsg _ => true
  | _ => false

/-- Is one character list a prefix of another? -/
def isPrefixChars : List Char → List Char → Bool
  | [], _ => true
  | _ :: _, [] => false
  | a :: as, b :: bs => a = b && isPrefixChars as bs

/-- Is the printed line an `[ERROR]` diagnostic of the exporter?
(Per-view diagnostics are indented by two spaces in the source.) -/
def isDiagLine : Event → Bool
  | .printLine s =>
    isPrefixChars "[ERROR]".data s.data || isPrefixChars "  [ERROR]".data s.data
  | _ => false

/-! ### CSV serialization (`df.to_csv(index=False)`) and read-back

`to_csv` follows pandas' defaults: header row of column names, one
record per row in order, no index column, fields joined by commas,
records terminated by a newline, and minimal quoting (a field is
wrapped in double quotes, with inner quotes doubled, exactly when it
contains a comma, a double quote, a newline or a carriage return). -/

/-- Does the field need quoting under pandas' minimal quoting? -/
def needsQuoteL (s : List Char) : Bool :=
  s.any (fun c => c = ',' || c = '"' || c = '\n' || c = '\r')

/-- Double every double quote inside a quoted field. -/
def escQ : List Char → List Char
  | [] => []
  | c :: cs => if c = '"' then '"' :: '"' :: escQ cs else c :: escQ cs

/-- Render one field with minimal quoting. -/
def escapeFieldL (s : List Char) : List Char :=
  if needsQuoteL s then '"' :: (escQ s ++ ['"']) else s

/-- Render one record: fields joined by commas (no trailing newline). -/
def renderRecordL : List (List Char) → List Char
  | [] => []
  | [f] => escapeFieldL f
  | f :: fs => escapeFieldL f ++ ',' :: renderRecordL fs

/-- Render a whole file: each record followed by a newline. -/
def renderFileL : List (List (List Char)) → List Char
  | [] => []
  | r :: rs => renderRecordL r ++ '\n' :: renderFileL rs

/-- `df.to_csv(index=False)`: header row then data rows, newline after
each record, no index column. -/
def to_csv (t : Table) : String :=
  String.mk (renderFileL ((t.cols.map String.data) :: t.rows.map (fun r => r.map String.data)))

/-- Modelled from the spec: the repository has no CSV reader, but the spec's
round-trip property speaks of "reading the resulting delimited file back".
`parseQuotedAux` consumes the body of a quoted field (opening quote already
consumed); a doubled quote is an escaped quote, a lone quote ends the field. -/
def parseQuotedAux : List Char → Option (List Char × List Char)
  | [] => none
  | c :: rest =>
    if c = '"' then
      match rest with
      | [] => some ([], [])
      | c2 :: rest2 =>
        if c2 = '"' then (parseQuotedAux rest2).map (fun p => ('"' :: p.1, p.2))
        else some ([], c2 :: rest2)
    else
      (parseQuotedAux rest).map (fun p => (c :: p.1, p.2))

/-- Modelled from the spec: consume an unquoted field, stopping at a comma,
a newline, or the end of input. -/
def parseUnquotedAux : List Char → List Char × List Char
  | [] => ([], [])
  | c :: rest =>
    if c = ',' || c = '\n' then ([], c :: rest)
    else
      let p := parseUnquotedAux rest
      (c :: p.1, p.2)

/-- Modelled from the spec: parse one field (quoted or not). -/
def parseField (cs : List Char) : Option (List Char × List Char) :=
  match cs with
  | [] => some ([], [])
  | c :: rest =>
    if c = '"' then parseQuotedAux rest
    else some (parseUnquotedAux (c :: rest))

/-- Modelled from the spec: parse one record (comma-separated fields up to
a newline or the end of input, consuming the newline); fuelled recursion. -/
def parseRecordAux : Nat → List Char → Option (List (List Char) × List Char)
  | 0, _ => none
  | fuel + 1, cs =>
    match parseField cs with
    | none => none
    | some (f, rest) =>
      match rest with
      | [] => some ([f], [])
      | c :: r =>
        if c = '\n' then some ([f], r)
        else if c = ',' then (parseRecordAux fuel r).map (fun p => (f :: p.1, p.2))
        else none

/-- Modelled from the spec: parse a sequence of records until the input is
exhausted; fuelled recursion. -/
def parseRecsAux : Nat → List Char → Option (List (List (List Char)))
  | _, [] => some []
  | 0, _ => none
  | n + 1, cs =>
    match parseRecordAux (cs.length + 1) cs with
    | none => none
    | some (r, rest) => (parseRecsAux n rest).map (fun rs => r :: rs)

/-- Modelled from the spec: read a delimited file back into a table, the
first record being the header of column names. -/
def read_csv (s : String) : Option Table :=
  match parseRecsAux (s.data.length + 1) s.data with
  | some (h :: rs) => some ⟨h.map String.mk, rs.map (fun r => r.map String.mk)⟩
  | _ => none

example : to_csv ⟨["a", "b"], [["1", "x,y"], ["he said \"hi\"", ""]]⟩ =
    "a,b\n1,\"x,y\"\n\"he said \"\"hi\"\"\",\n" := by decide

example : read_csv "a,b\n1,\"x,y\"\n\"he said \"\"hi\"\"\",\n" =
    some ⟨["a", "b"], [["1", "x,y"], ["he said \"hi\"", ""]]⟩ := by decide

/-! ### `dashboard.py`: `load_view` and the `@st.cache_data` layer -/

/-- `dashboard.py`, `load_view` (lines 24-33), without the cache layer:

    try:
        conn = sqlite3.connect(DB_FILE)
        df = pd.read_sql_query(f"SELECT * FROM \x7bview_name\x7d", conn)
        conn.close()
        return df
    except Exception as e:
        st.error(f"Error loading \x7bview_name\x7d: \x7bstr(e)\x7d")
        return pd.DataFrame()

Note that when the query raises, the `except` branch is taken before
`conn.close()` is reached, so the already-opened connection is not closed. -/
def load_view (env : Env) (view_name : String) : Table × List Event :=
  if env.connectFails then
    (Table.emptyTable, [.errorMsg ("Error loading " ++ view_name ++ ": " ++ env.connectMsg)])
  else
    match runQuery env view_name with
    | .ok df => (df, [.openConn, .query view_name, .closeConn])
    | .error (.operational msg) =>
      (Table.emptyTable, [.openConn, .query view_name,
        .errorMsg ("Error loading " ++ view_name ++ ": " ++ msg)])
    | .error (.other msg) =>
      (Table.emptyTable, [.openConn, .query view_name,
        .errorMsg ("Error loading " ++ view_name ++ ": " ++ msg)])

/-- The `@st.cache_data` memoization table, keyed by the argument of
`load_view`. -/
def Cache := List (String × Table)

/-- Cache lookup by view name. -/
def lookupCache : Cache → String → Option Table
  | [], _ => none
  | (k, t) :: rest, v => if k = v then some t else lookupCache rest v

/-- `load_view` as actually called through `@st.cache_data`: a cache hit
returns the stored table with no effect at all; a miss runs the body and
stores its result (the body never raises, so even an empty failure result
is stored). -/
def load_view_cached (env : Env) (c : Cache) (view_name : String) :
    Table × Cache × List Event :=
  match lookupCache c view_name with
  | some t => (t, c, [])
  | none =>
    let r := load_view env view_name
    (r.1, (view_name, r.1) :: c, r.2)

/-- One interactive session: a sequence of view requests served through the
cached reader, starting from a given cache, accumulating the trace. -/
def sessionRun (env : Env) : List String → Cache → List Event × Cache
  | [], c => ([], c)
  | v :: vs, c =>
    let r := load_view_cached env c v
    let rest := sessionRun env vs r.2.1
    (r.2.2 ++ rest.1, rest.2)

/-! ### `export_views.py` -/

/-- `export_views.py`, `VIEWS` (lines 16-28): the fixed catalog. -/
def VIEWS : List String :=
  ["churn_by_branch",
   "churn_by_account_type",
   "income_band_churn",
   "avg_balance_by_branch",
   "avg_balance_by_account_type",
   "balance_by_tenure",
   "account_type_distribution",
   "branch_distribution",
   "high_value_customers",
   "overall_kpis",
   "branch_performance"]

/-- Python `f"\x7bs:30s\x7d"`: pad on the right with spaces to width `n`. -/
def padRight (s : String) (n : Nat) : String :=
  s ++ String.mk (List.replicate (n - s.length) ' ')

/-- Python `f"\x7bk:3d\x7d"`: pad on the left with spaces to width `n`. -/
def padLeft (s : String) (n : Nat) : String :=
  String.mk (List.replicate (n - s.length) ' ') ++ s

/-- `export_views.py`, `export_view_to_csv` (lines 37-69): query one view on
the shared connection; on success write the CSV and print an `[OK]` line and
return `True`; on `sqlite3.OperationalError` print the view-not-found
diagnostic and hint and return `False`; on any other exception print the
generic diagnostic and return `False`. -/
def export_view_to_csv (env : Env) (view_name : String) : Bool × List Event :=
  match runQuery env view_name with
  | .ok df =>
    let csv_path := "results/" ++ view_name ++ ".csv"
    (true, [.query view_name, .writeCsv csv_path (to_csv df),
      .printLine ("  [OK] Exported " ++ padRight view_name 30 ++ " -> " ++
        padLeft (toString df.rows.length) 3 ++ " rows -> " ++ csv_path)])
  | .error (.operational _) =>
    (false, [.query view_name,
      .printLine ("  [ERROR] Error exporting " ++ view_name ++ ": View does not exist"),
      .printLine "    Hint: Make sure you\x27ve run views.sql first"])
  | .error (.other msg) =>
    (false, [.query view_name,
      .printLine ("  [ERROR] Error exporting " ++ view_name ++ ": " ++ msg)])

/-- The per-view loop of `main` (lines 98-101): accumulate the success count
and the trace over the list of views. -/
def exportLoop (env : Env) : List String → Nat × List Event
  | [] => (0, [])
  | v :: vs =>
    let r := export_view_to_csv env v
    let rest := exportLoop env vs
    ((if r.1 then 1 else 0) + rest.1, r.2 ++ rest.2)

/-- A line of 70 `=` characters. -/
def eq70 : String := String.mk (List.replicate 70 '=')

/-- A line of 70 `-` characters. -/
def dash70 : String := String.mk (List.replicate 70 '-')

/-- The opening banner of `main` (lines 74-77). -/
def exporterHeader : List Event :=
  [.printLine eq70,
   .printLine "Bank Customer Analytics - View Exporter",
   .printLine eq70,
   .printLine ""]

/-- The pre-check failure output of `main` (lines 81-82). -/
def exporterAbsentMsgs : List Event :=
  [.printLine "[ERROR] Database file \x27bank.db\x27 not found!",
   .printLine "  Make sure bank.db exists in the current directory."]

/-- `create_results_folder` (lines 31-34) plus the following blank line. -/
def exporterFolderMsgs : List Event :=
  [.mkdir "results",
   .printLine "[OK] Results folder \x27results\x27 ready",
   .printLine ""]

/-- The post-connect progress lines of `main` (lines 92-95). -/
def exporterConnMsgs : List Event :=
  [.printLine "[OK] Connected to bank.db",
   .printLine "",
   .printLine "Exporting views to CSV...",
   .printLine dash70]

/-- The summary block of `main` (lines 107-110), given the success count.
`os.path.abspath(RESULTS_DIR)` is modelled as the fixed absolute path of
the results directory. -/
def exporterSummary (n : Nat) : List Event :=
  [.printLine dash70,
   .printLine ("\nSummary: " ++ toString n ++ "/" ++ toString VIEWS.length ++
     " views exported successfully"),
   .printLine "CSV files saved to: /results/",
   .printLine eq70]

/-- `export_views.py`, `main` (lines 72-113): banner; abort if `bank.db`
does not exist; create the results folder; connect (one connection for the
whole batch) inside a `try` whose `except` only reports a connection error;
run the per-view loop; close the connection; print the summary. -/
def mainExport (env : Env) : List Event :=
  exporterHeader ++
  (if env.dbExists = false then
     exporterAbsentMsgs
   else
     exporterFolderMsgs ++
     (if env.connectFails then
        [.printLine ("[ERROR] Error connecting to database: " ++ env.connectMsg)]
      else
        let loop := exportLoop env VIEWS
        Event.openConn :: exporterConnMsgs ++ loop.2 ++
          Event.closeConn :: exporterSummary loop.1))

/-! ### Python numeric formatting used by the KPI strip

All KPI inputs considered are exactly representable as IEEE-754 doubles,
so Python's fixed-point formatting equals correctly-rounded fixed-point
formatting of the exact rational value, ties going to the even digit. -/

/-- Group a reversed digit list in threes with commas (Python `\x7b:,\x7d`). -/
def groupRev : List Char → List Char
  | a :: b :: c :: d :: rest => a :: b :: c :: ',' :: groupRev (d :: rest)
  | ds => ds

/-- Digits of `n` with thousands separators. -/
def commaDigits (n : Nat) : String :=
  String.mk (groupRev (Nat.toDigits 10 n).reverse).reverse

/-- Python `f"\x7bn:,\x7d"` on an `int`. -/
def pyCommaInt (n : ℤ) : String :=
  (if n < 0 then "-" else "") ++ commaDigits n.natAbs

/-- Round `(num * 10 ^ p) / den` (with `den > 0`) to the nearest integer,
ties to the even integer — the rounding Python's float formatting applies
to the exact value of the double being formatted. -/
def roundScaled (num : ℤ) (den : ℕ) (p : Nat) : ℤ :=
  let scaled := num * (10 : ℤ) ^ p
  let f := scaled.ediv den
  let twiceRem := 2 * scaled.emod den
  if twiceRem < den then f
  else if (den : ℤ) < twiceRem then f + 1
  else if f % 2 = 0 then f else f + 1

/-- The fractional digits, left-padded with zeros to `p` digits. -/
def fracDigits (p : Nat) (m : Nat) : String :=
  let d := Nat.toDigits 10 m
  String.mk (List.replicate (p - d.length) '0' ++ d)

/-- Python `f"\x7bx:.pf\x7d"`: fixed-point with `p` decimals, no separators. -/
def pyFixed (x : ℚ) (p : Nat) : String :=
  let n := roundScaled x.num x.den p
  let a := n.natAbs
  (if n < 0 then "-" else "") ++ String.mk (Nat.toDigits 10 (a / 10 ^ p)) ++
    (if p = 0 then "" else "." ++ fracDigits p (a % 10 ^ p))

/-- Python `f"\x7bx:,.pf\x7d"`: fixed-point with `p` decimals and thousands
separators in the integer part. -/
def pyCommaFixed (x : ℚ) (p : Nat) : String :=
  let n := roundScaled x.num x.den p
  let a := n.natAbs
  (if n < 0 then "-" else "") ++ commaDigits (a / 10 ^ p) ++
    (if p = 0 then "" else "." ++ fracDigits p (a % 10 ^ p))

/-- The single row of the `overall_kpis` view, as the dashboard reads it. -/
structure KpiRow where
  total_customers : ℤ
  overall_churn_rate_pct : ℚ
  avg_balance : ℚ
  total_balance : ℚ
deriving DecidableEq, Repr

/-- `dashboard.py`, lines 54-86: the four rendered KPI strings, in order —
`f"\x7btotal_customers:,\x7d"`, `f"\x7bchurn_rate:.1f\x7d%"`,
`f"$\x7bavg_balance:,.2f\x7d"`, `f"$\x7btotal_balance:,.0f\x7d"`. -/
def kpiStrings (k : KpiRow) : List String :=
  [pyCommaInt k.total_customers,
   pyFixed k.overall_churn_rate_pct 1 ++ "%",
   "$" ++ pyCommaFixed k.avg_balance 2,
   "$" ++ pyCommaFixed k.total_balance 0]

example : pyCommaInt 12345 = "12,345" := by decide
example : pyFixed (mkRat 29 4) 1 = "7.2" := by decide
example : pyCommaFixed (mkRat 2469 2) 2 = "1,234.50" := by decide
example : pyCommaFixed (mkRat 9876543 1) 0 = "9,876,543" := by decide

/-! ### The dashboard page (`dashboard.py`, module body) -/

/-- Parse a nonempty string of decimal digits. -/
def parseNatDigits (cs : List Char) : Option Nat :=
  if cs.isEmpty then none
  else
    cs.foldl
      (fun acc c =>
        acc.bind (fun n => if c.isDigit then some (10 * n + (c.toNat - 48)) else none))
      (some 0)

/-- Python `int(...)` applied to a cell's textual rendering. -/
def parseIntStr (s : String) : Option ℤ :=
  match s.data with
  | '-' :: rest => (parseNatDigits rest).map (fun n => -(n : ℤ))
  | cs => (parseNatDigits cs).map (fun n => (n : ℤ))

/-- Split a character list at the first decimal point, if any. -/
def splitDot : List Char → List Char × Option (List Char)
  | [] => ([], none)
  | '.' :: rest => ([], some rest)
  | c :: rest =>
    let p := splitDot rest
    (c :: p.1, p.2)

/-- A numeric cell's exact value, as a rational, from its textual rendering
(optional sign, integer digits, optional fractional digits). -/
def parseRatStr (s : String) : Option ℚ :=
  let core : List Char → Option ℚ := fun cs =>
    let p := splitDot cs
    match p.2 with
    | none => (parseNatDigits p.1).map (fun n => mkRat n 1)
    | some fr =>
      match parseNatDigits p.1, parseNatDigits fr with
      | some ip, some fp => some (mkRat (ip * 10 ^ fr.length + fp) (10 ^ fr.length))
      | _, _ => none
  match s.data with
  | '-' :: rest => (core rest).map Rat.neg
  | cs => core cs

/-- Index of a column name in a header, leftmost first. -/
def colIndex : List String → String → Option Nat
  | [], _ => none
  | c :: cs, name => if c = name then some 0 else (colIndex cs name).map (fun i => i + 1)

/-- `df[name].iloc[0]`: the first row's cell in the named column. -/
def getCell0 (t : Table) (name : String) : Option String :=
  match colIndex t.cols name, t.rows with
  | some i, r :: _ => r.get? i
  | _, _ => none

/-- `df[[names...]]`: project a table onto the named columns, in the given
order; `none` (a `KeyError`) when a name is absent. -/
def selectCols (t : Table) (names : List String) : Option Table :=
  match names.mapM (colIndex t.cols) with
  | none => none
  | some idxs => some ⟨names, t.rows.map (fun r => idxs.map (fun i => (r.get? i).getD ""))⟩

/-- `dashboard.py`, lines 296-308: the Data Tables selector's label-to-view
mapping, in source order. -/
def view_options : List (String × String) :=
  [("Churn by Branch", "churn_by_branch"),
   ("Churn by Account Type", "churn_by_account_type"),
   ("Income Band Churn", "income_band_churn"),
   ("Average Balance by Branch", "avg_balance_by_branch"),
   ("Average Balance by Account Type", "avg_balance_by_account_type"),
   ("Balance by Tenure", "balance_by_tenure"),
   ("Account Type Distribution", "account_type_distribution"),
   ("Branch Distribution", "branch_distribution"),
   ("High Value Customers", "high_value_customers"),
   ("Overall KPIs", "overall_kpis"),
   ("Branch Performance", "branch_performance")]

/-- Association-list lookup for `view_options`. -/
def lookupAssoc : List (String × String) → String → Option String
  | [], _ => none
  | (k, v) :: rest, key => if k = key then some v else lookupAssoc rest key

/-- One subheader-plus-chart block of the dashboard: print the subheader,
fetch the view through the cache, and render the chart only when the result
is nonempty (the empty-result panel is skipped silently). -/
def chartBlock (env : Env) (c : Cache) (view sub titleStr : String) :
    List Event × Cache :=
  let r := load_view_cached env c view
  ((Event.subheaderEvt sub :: r.2.2) ++
    (if r.1.isEmpty then [] else [Event.chart titleStr]), r.2.1)

/-- The Python exceptions distinguished by the dashboard's top-level
handlers (lines 335-342). -/
inductive PyExc where
  | operationalError (msg : String)
  | fileNotFound
  | generic (msg : String)
deriving DecidableEq, Repr

/-- How the `try` body of the dashboard script terminates. -/
inductive Outcome where
  | done
  | stopped
  | raised (e : PyExc)
deriving DecidableEq, Repr

/-- The six columns the High-Value Customers table is projected onto
(line 242). -/
def highValueCols : List String :=
  ["customer_id", "branch", "account_type", "balance", "income", "tenure_years"]

/-- `dashboard.py`, lines 43-333: the body of the top-level `try`.
Fetch `overall_kpis`; if empty, show the no-data diagnostic and `st.stop()`.
Otherwise render the four KPI metrics (an unparsable or missing KPI cell is
a raised `KeyError`/`ValueError`, left to the top-level handlers), then the
five tabs: each chart panel is skipped silently when its view is empty; the
High-Value table is a six-column projection; the Data Tables tab looks up
the selected label, shows the table and offers the CSV download. -/
def dashboardBody (env : Env) (c0 : Cache) (selected : String) :
    List Event × Cache × Outcome :=
  let r0 := load_view_cached env c0 "overall_kpis"
  let kpis := r0.1
  let c1 := r0.2.1
  if kpis.isEmpty then
    (r0.2.2 ++ [.errorMsg "⚠️ No data found. Please ensure views are created in the database.",
      .stopEv], c1, .stopped)
  else
    let e1 := r0.2.2 ++ [Event.headerEvt "📈 Key Performance Indicators"]
    match (getCell0 kpis "total_customers").bind parseIntStr with
    | none => (e1, c1, .raised (.generic "invalid column total_customers"))
    | some tc =>
      let e2 := e1 ++ [Event.metric "Total Customers" (pyCommaInt tc)]
      match (getCell0 kpis "overall_churn_rate_pct").bind parseRatStr with
      | none => (e2, c1, .raised (.generic "invalid column overall_churn_rate_pct"))
      | some cr =>
        let e3 := e2 ++ [Event.metric "Overall Churn Rate" (pyFixed cr 1 ++ "%")]
        match (getCell0 kpis "avg_balance").bind parseRatStr with
        | none => (e3, c1, .raised (.generic "invalid column avg_balance"))
        | some ab =>
          let e4 := e3 ++ [Event.metric "Average Balance" ("$" ++ pyCommaFixed ab 2)]
          match (getCell0 kpis "total_balance").bind parseRatStr with
          | none => (e4, c1, .raised (.generic "invalid column total_balance"))
          | some tb =>
            let e5 := e4 ++ [Event.metric "Total Balance" ("$" ++ pyCommaFixed tb 0),
              Event.markdownEvt "---"]
            let b1 := chartBlock env c1 "churn_by_branch"
              "Churn Rate by Branch" "Churn Rate by Branch"
            let b2 := chartBlock env b1.2 "churn_by_account_type"
              "Churn Rate by Account Type" "Churn Rate Distribution by Account Type"
            let b3 := chartBlock env b2.2 "income_band_churn"
              "Churn by Income Band" "Churn Rate by Income Band"
            let b4 := chartBlock env b3.2 "avg_balance_by_branch"
              "Average Balance by Branch" "Average Balance by Branch"
            let b5 := chartBlock env b4.2 "avg_balance_by_account_type"
              "Average Balance by Account Type" "Average Balance by Account Type"
            let b6 := chartBlock env b5.2 "balance_by_tenure"
              "Balance by Customer Tenure" "Average Balance by Customer Tenure"
            let b7 := chartBlock env b6.2 "account_type_distribution"
              "Account Type Distribution" "Customer Distribution by Account Type"
            let b8 := chartBlock env b7.2 "branch_distribution"
              "Branch Distribution" "Customer Distribution by Branch"
            let e6 := e5 ++ [Event.headerEvt "Customer Churn Analysis"] ++
              b1.1 ++ b2.1 ++ b3.1 ++
              [Event.headerEvt "Balance & Financial Analysis"] ++ b4.1 ++ b5.1 ++ b6.1 ++
              [Event.headerEvt "Customer Segmentation"] ++ b7.1 ++ b8.1
            let r9 := load_view_cached env b8.2 "high_value_customers"
            let e7 := e6 ++ [Event.subheaderEvt "High-Value Customers"] ++ r9.2.2
            let hvStep : List Event × Option PyExc :=
              if r9.1.isEmpty then ([], none)
              else
                match selectCols r9.1 highValueCols with
                | none => ([], some (.generic "KeyError in high_value_customers columns"))
                | some proj => ([Event.dataframePanel "high_value_customers" proj], none)
            match hvStep.2 with
            | some exc => (e7 ++ hvStep.1, r9.2.1, .raised exc)
            | none =>
              let e8 := e7 ++ hvStep.1
              let r10 := load_view_cached env r9.2.1 "branch_performance"
              let e9 := e8 ++ [Event.headerEvt "Branch Performance Overview"] ++ r10.2.2 ++
                (if r10.1.isEmpty then []
                 else
                   [Event.chart "Branch Performance: Churn Rate vs Average Balance",
                    Event.subheaderEvt "Branch Performance Metrics",
                    Event.dataframePanel "branch_performance" r10.1])
              let e10 := e9 ++ [Event.headerEvt "Data Tables", Event.selectbox selected]
              match lookupAssoc view_options selected with
              | none => (e10, r10.2.1, .raised (.generic "KeyError in view_options"))
              | some vname =>
                let r11 := load_view_cached env r10.2.1 vname
                let e11 := e10 ++ r11.2.2 ++
                  (if r11.1.isEmpty then []
                   else
                     [Event.dataframePanel vname r11.1,
                      Event.downloadButton (vname ++ ".csv") (to_csv r11.1)]) ++
                  [Event.markdownEvt "---",
                   Event.markdownEvt "Bank Customer Analytics Dashboard | Built with Streamlit"]
                (e11, r11.2.1, .done)

/-- `dashboard.py`, whole module: the pre-`try` header (lines 36-40), the
`try` body, and the three top-level handlers (lines 335-342).  `st.stop()`
ends the run cleanly after its diagnostic. -/
def dashboardRun (env : Env) (c0 : Cache) (selected : String) :
    List Event × Cache :=
  let pre : List Event :=
    [.titleEvt "🏦 Bank Customer Analytics Dashboard",
     .markdownEvt "---",
     .sidebarHeader "📊 Filters & Options"]
  let r := dashboardBody env c0 selected
  match r.2.2 with
  | .done => (pre ++ r.1, r.2.1)
  | .stopped => (pre ++ r.1, r.2.1)
  | .raised (.operationalError m) =>
    (pre ++ r.1 ++ [.errorMsg ("⚠️ Database error: " ++ m),
      .infoMsg "💡 Make sure you\x27ve created the views by running views.sql first!"], r.2.1)
  | .raised .fileNotFound =>
    (pre ++ r.1 ++ [.errorMsg "⚠️ Database file \x27bank.db\x27 not found!",
      .infoMsg "💡 Please ensure bank.db exists in the current directory."], r.2.1)
  | .raised (.generic m) =>
    (pre ++ r.1 ++ [.errorMsg ("⚠️ An error occurred: " ++ m)], r.2.1)

/-! ### Concrete environments used by counterexamples and witnesses -/

/-- A one-column, one-row table. -/
def tableA : Table := ⟨["a"], [["1"]]⟩

/-- A database that exists but contains no views at all. -/
def envNoViews : Env :=
  { dbExists := true, connectFails := false, connectMsg := "",
    views := fun _ => none, faulty := fun _ => none }

/-- `bank.db` absent from the file system. -/
def envAbsent : Env :=
  { dbExists := false, connectFails := false, connectMsg := "",
    views := fun _ => none, faulty := fun _ => none }

/-- An otherwise valid database in which exactly `income_band_churn` is
missing. -/
def envOneMissing : Env :=
  { dbExists := true, connectFails := false, connectMsg := "",
    views := fun w => if w = "income_band_churn" then none else some tableA,
    faulty := fun _ => none }

/-! ### Shared helper lemmas -/

theorem countEv_append (e : Event) (a b : List Event) :
    countEv e (a ++ b) = countEv e a + countEv e b := by
  simp [countEv, List.filter_append]

/-- Stitching a string back together from its characters. -/
theorem string_mk_data (s : String) : String.mk s.data = s := rfl

/-! ### C1 -/

/-- C1: for every view name, `load_view` resolves every failure of the
query (connection failure, missing database file / missing view, or any
other fault) to the empty table, never a raised fault, and on success
returns the query's table unchanged. -/
theorem load_view_failure_policy (env : Env) (v : String) :
    (load_view env v).1 =
      (if env.connectFails then Table.emptyTable
       else
         match runQuery env v with
         | .ok t => t
         | .error _ => Table.emptyTable) := by
  unfold load_view
  by_cases h : env.connectFails
  · simp [h]
  · simp [h]
    cases runQuery env v with
    | ok t => simp
    | error e => cases e <;> simp

/-! ### C4 -/

/-- C4 counterexample: on a database with no views, one call to `load_view`
opens a connection but does not close it before returning — the `except`
branch is reached before `conn.close()`, so the claim that the connection
is closed on every failure path is false. -/
theorem load_view_leak_counterexample :
    countEv Event.openConn (load_view envNoViews "churn_by_branch").2 = 1 ∧
    ¬ countEv Event.closeConn (load_view envNoViews "churn_by_branch").2 = 1 := by
  decide

/-- C4 amended: each `load_view` call opens exactly one connection (none
when `sqlite3.connect` itself raises) and closes it before returning only
on the success path; on a failed query the opened connection is not
closed. -/
theorem load_view_connection_discipline (env : Env) (v : String) :
    countEv Event.openConn (load_view env v).2 =
      (if env.connectFails then 0 else 1) ∧
    countEv Event.closeConn (load_view env v).2 =
      (if env.connectFails then 0
       else
         match runQuery env v with
         | .ok _ => 1
         | .error _ => 0) := by
  unfold load_view
  by_cases h : env.connectFails
  · simp [h, countEv]
  · simp [h]
    cases runQuery env v with
    | ok t => simp [countEv]
    | error e => cases e <;> simp [countEv]

/-! ### C6 -/

/-- The KPI row of the claim: customer count 12345, churn rate 7.25,
average balance 1234.5, total balance 9876543 (all exactly representable
as binary doubles). -/
def kpiInput : KpiRow := ⟨12345, mkRat 29 4, mkRat 2469 2, mkRat 9876543 1⟩

/-- C6 counterexample: the four rendered KPI strings are not
`"12,345", "7.3%", "$1,234.50", "$9,876,543"` — Python's `:.1f` rounds the
exactly-representable 7.25 to even, displaying `7.2%`, not `7.3%`. -/
theorem kpi_formatting_counterexample :
    kpiStrings kpiInput ≠ ["12,345", "7.3%", "$1,234.50", "$9,876,543"] := by
  decide

/-- C6 amended: given customer count 12345, churn rate 7.25, average
balance 1234.5 and total balance 9876543, the four rendered KPI strings
are exactly `"12,345"`, `"7.2%"`, `"$1,234.50"`, `"$9,876,543"`. -/
theorem kpi_formatting :
    kpiStrings kpiInput = ["12,345", "7.2%", "$1,234.50", "$9,876,543"] := by
  decide

/-! ### C3 -/

/-- The full exporter trace when the database file is missing. -/
theorem mainExport_absent_trace (env : Env) (h : env.dbExists = false) :
    mainExport env = exporterHeader ++ exporterAbsentMsgs := by
  simp [mainExport, h]

/-- C3: if the database file does not exist, the batch exporter prints the
banner and a single fatal `[ERROR]` diagnostic (with its hint line), then
returns: it issues no queries and writes no CSV files. -/
theorem exporter_absent_db (env : Env) (h : env.dbExists = false) :
    mainExport env = exporterHeader ++ exporterAbsentMsgs ∧
    ((mainExport env).filter isDiagLine).length = 1 ∧
    (mainExport env).filter isQuery = [] ∧
    (mainExport env).filter isWrite = [] := by
  have htr := mainExport_absent_trace env h
  refine ⟨htr, ?_, ?_, ?_⟩ <;> rw [htr] <;> decide

/-- C3 witness. -/
theorem exporter_absent_db_witness :
    mainExport envAbsent = exporterHeader ++ exporterAbsentMsgs ∧
    ((mainExport envAbsent).filter isDiagLine).length = 1 ∧
    (mainExport envAbsent).filter isQuery = [] ∧
    (mainExport envAbsent).filter isWrite = [] :=
  exporter_absent_db envAbsent rfl

/-! ### C10 -/

/-- C10: when the database file is absent the exporter also leaves the
file system otherwise untouched — the pre-check returns before
`create_results_folder`, so no directory is created (and no file is
written). -/
theorem exporter_absent_db_no_mkdir (env : Env) (h : env.dbExists = false) :
    (mainExport env).filter isMkdir = [] ∧
    (mainExport env).filter isWrite = [] := by
  have htr := mainExport_absent_trace env h
  refine ⟨?_, ?_⟩ <;> rw [htr] <;> decide

/-- C10 witness. -/
theorem exporter_absent_db_no_mkdir_witness :
    (mainExport envAbsent).filter isMkdir = [] ∧
    (mainExport envAbsent).filter isWrite = [] :=
  exporter_absent_db_no_mkdir envAbsent rfl

/-! ### C9 -/

theorem load_view_query_other (env : Env) (v w : String) (hne : v ≠ w) :
    countEv (Event.query v) (load_view env w).2 = 0 := by
  unfold load_view
  by_cases h : env.connectFails
  · simp [h, countEv]
  · simp [h]
    cases runQuery env w with
    | ok t => simp [countEv, hne, Ne.symm hne]
    | error e => cases e <;> simp [countEv, hne, Ne.symm hne]

theorem load_view_query_self (env : Env) (w : String) :
    countEv (Event.query w) (load_view env w).2 ≤ 1 := by
  unfold load_view
  by_cases h : env.connectFails
  · simp [h, countEv]
  · simp [h]
    cases runQuery env w with
    | ok t => simp [countEv]
    | error e => cases e <;> simp [countEv]

theorem lookupCache_after (env : Env) (c : Cache) (w : String) :
    (lookupCache (load_view_cached env c w).2.1 w).isSome := by
  unfold load_view_cached
  cases h : lookupCache c w with
  | some t => simp [h]
  | none => simp [h, lookupCache]

theorem lookupCache_mono (env : Env) (c : Cache) (v w : String)
    (h : (lookupCache c v).isSome) :
    (lookupCache (load_view_cached env c w).2.1 v).isSome := by
  unfold load_view_cached
  cases hw : lookupCache c w with
  | some t => simpa [hw] using h
  | none => by_cases hvw : w = v <;> simp [lookupCache, hvw, h]

theorem sessionRun_no_query_of_cached (env : Env) (v : String) :
    ∀ (reqs : List String) (c : Cache), (lookupCache c v).isSome →
      countEv (Event.query v) (sessionRun env reqs c).1 = 0 := by
  intro reqs
  induction reqs with
  | nil => intro c _; simp [sessionRun, countEv]
  | cons w reqs ih =>
    intro c h
    unfold sessionRun
    rw [countEv_append]
    cases hw : lookupCache c w with
    | some t =>
      simp only [load_view_cached, hw]
      simpa [countEv] using ih c h
    | none =>
      have hvw : v ≠ w := by
        intro hh
        subst hh
        rw [hw] at h
        simp at h
      have hmono := lookupCache_mono env c v w h
      simp only [load_view_cached, hw] at hmono
      simp only [load_view_cached, hw]
      rw [load_view_query_other env v w hvw]
      simpa using ih _ hmono

theorem sessionRun_query_le_one_aux (env : Env) (v : String) :
    ∀ (reqs : List String) (c : Cache),
      countEv (Event.query v) (sessionRun env reqs c).1 ≤ 1 := by
  intro reqs
  induction reqs with
  | nil => intro c; simp [sessionRun, countEv]
  | cons w reqs ih =>
    intro c
    unfold sessionRun
    rw [countEv_append]
    cases hw : lookupCache c w with
    | some t =>
      simp only [load_view_cached, hw]
      simpa [countEv] using ih c
    | none =>
      by_cases hvw : v = w
      · subst hvw
        have h1 : countEv (Event.query v) (load_view env v).2 ≤ 1 :=
          load_view_query_self env v
        have h0 : countEv (Event.query v)
            (sessionRun env reqs (load_view_cached env c v).2.1).1 = 0 :=
          sessionRun_no_query_of_cached env v reqs _ (lookupCache_after env c v)
        simp only [load_view_cached, hw] at h0 ⊢
        omega
      · simp only [load_view_cached, hw]
        rw [load_view_query_other env v w hvw]
        simpa using ih _

theorem sessionRun_cache_mono (env : Env) (v : String) :
    ∀ (reqs : List String) (c : Cache), (lookupCache c v).isSome →
      (lookupCache (sessionRun env reqs c).2 v).isSome := by
  intro reqs
  induction reqs with
  | nil => intro c h; simpa [sessionRun] using h
  | cons w reqs ih =>
    intro c h
    unfold sessionRun
    exact ih _ (lookupCache_mono env c v w h)

theorem sessionRun_caches (env : Env) (v : String) :
    ∀ (reqs : List String) (c : Cache), v ∈ reqs →
      (lookupCache (sessionRun env reqs c).2 v).isSome := by
  intro reqs
  induction reqs with
  | nil => intro c h; simp at h
  | cons w reqs ih =>
    intro c h
    unfold sessionRun
    rcases List.mem_cons.mp h with hvw | hmem
    · subst hvw
      exact sessionRun_cache_mono env v reqs _ (lookupCache_after env c v)
    · exact ih _ hmem

/-- C9: within one dashboard session (one cache lifetime), any sequence of
view requests served through the `@st.cache_data` reader issues at most one
underlying database query per view name; moreover once a name has been
requested, any further request for it is a pure cache hit producing no
effect at all. -/
theorem session_memoization (env : Env) (reqs : List String) (v : String) :
    countEv (Event.query v) (sessionRun env reqs []).1 ≤ 1 ∧
    (v ∈ reqs →
      (load_view_cached env (sessionRun env reqs []).2 v).2.2 = []) := by
  refine ⟨sessionRun_query_le_one_aux env v reqs [], fun hmem => ?_⟩
  have h := sessionRun_caches env v reqs [] hmem
  unfold load_view_cached
  cases hc : lookupCache (sessionRun env reqs []).2 v with
  | some t => simp
  | none => rw [hc] at h; simp at h

/-- C9 witness: requesting the same view twice in a fresh session. -/
theorem session_memoization_witness :
    countEv (Event.query "churn_by_branch")
      (sessionRun envOneMissing ["churn_by_branch", "churn_by_branch"] []).1 ≤ 1 ∧
    (load_view_cached envOneMissing
      (sessionRun envOneMissing ["churn_by_branch", "churn_by_branch"] []).2
      "churn_by_branch").2.2 = [] := by
  have h := session_memoization envOneMissing ["churn_by_branch", "churn_by_branch"]
    "churn_by_branch"
  exact ⟨h.1, h.2 (by decide)⟩

/-! ### C5 -/

theorem export_view_events (env : Env) (v : String) :
    countEv Event.openConn (export_view_to_csv env v).2 = 0 ∧
    countEv Event.closeConn (export_view_to_csv env v).2 = 0 ∧
    (export_view_to_csv env v).2.filter isQuery = [Event.query v] := by
  unfold export_view_to_csv
  cases runQuery env v with
  | ok t => simp [countEv, isQuery]
  | error e => cases e <;> simp [countEv, isQuery]

theorem exportLoop_no_conn (env : Env) :
    ∀ vs : List String,
      countEv Event.openConn (exportLoop env vs).2 = 0 ∧
      countEv Event.closeConn (exportLoop env vs).2 = 0 := by
  intro vs
  induction vs with
  | nil => simp [exportLoop, countEv]
  | cons v vs ih =>
    have hv := export_view_events env v
    unfold exportLoop
    rw [countEv_append, countEv_append] at *
    exact ⟨by rw [hv.1, ih.1], by rw [hv.2.1, ih.2]⟩

theorem exportLoop_query_count (env : Env) :
    ∀ vs : List String,
      ((exportLoop env vs).2.filter isQuery).length = vs.length := by
  intro vs
  induction vs with
  | nil => simp [exportLoop]
  | cons v vs ih =>
    have hv := (export_view_events env v).2.2
    unfold exportLoop
    rw [List.filter_append, List.length_append, hv, ih]
    simp only [List.length_cons, List.length_nil]
    omega

theorem countEv_cons (e a : Event) (l : List Event) :
    countEv e (a :: l) = (if a = e then 1 else 0) + countEv e l := by
  by_cases h : a = e
  · simp [countEv, List.filter_cons, h]
    omega
  · simp [countEv, List.filter_cons, h]

theorem exporterSummary_no_conn (n : Nat) :
    countEv Event.openConn (exporterSummary n) = 0 ∧
    countEv Event.closeConn (exporterSummary n) = 0 :=
  ⟨rfl, rfl⟩

/-- The exporter trace when the database exists and the connection opens. -/
theorem mainExport_connected_trace (env : Env)
    (h1 : env.dbExists = true) (h2 : env.connectFails = false) :
    mainExport env =
      (exporterHeader ++ exporterFolderMsgs) ++
        Event.openConn :: (exporterConnMsgs ++ (exportLoop env VIEWS).2 ++
          Event.closeConn :: exporterSummary (exportLoop env VIEWS).1) := by
  simp [mainExport, h1, h2]

/-- C5: in a run where `bank.db` exists and the connection opens, exactly
one connection is opened for the whole batch, all eleven view queries run
on it (the loop trace sits between the open and the close and contains
eleven queries and no connection events of its own, so per-view failures
cannot skip the close), and the connection is closed exactly once, after
the loop. -/
theorem exporter_single_connection (env : Env)
    (h1 : env.dbExists = true) (h2 : env.connectFails = false) :
    mainExport env =
      (exporterHeader ++ exporterFolderMsgs) ++
        Event.openConn :: (exporterConnMsgs ++ (exportLoop env VIEWS).2 ++
          Event.closeConn :: exporterSummary (exportLoop env VIEWS).1) ∧
    countEv Event.openConn (mainExport env) = 1 ∧
    countEv Event.closeConn (mainExport env) = 1 ∧
    ((exportLoop env VIEWS).2.filter isQuery).length = VIEWS.length ∧
    countEv Event.openConn (exportLoop env VIEWS).2 = 0 ∧
    countEv Event.closeConn (exportLoop env VIEWS).2 = 0 := by
  have htr := mainExport_connected_trace env h1 h2
  have hloop := exportLoop_no_conn env VIEWS
  have hsum := exporterSummary_no_conn (exportLoop env VIEWS).1
  refine ⟨htr, ?_, ?_, exportLoop_query_count env VIEWS, hloop.1, hloop.2⟩
  · rw [htr, countEv_append, countEv_cons, countEv_append, countEv_append, countEv_cons,
      countEv_append]
    have hH : countEv Event.openConn exporterHeader = 0 := by decide
    have hF : countEv Event.openConn exporterFolderMsgs = 0 := by decide
    have hC : countEv Event.openConn exporterConnMsgs = 0 := by decide
    rw [hH, hF, hC, hloop.1, hsum.1]
    simp
  · rw [htr, countEv_append, countEv_cons, countEv_append, countEv_append, countEv_cons,
      countEv_append]
    have hH : countEv Event.closeConn exporterHeader = 0 := by decide
    have hF : countEv Event.closeConn exporterFolderMsgs = 0 := by decide
    have hC : countEv Event.closeConn exporterConnMsgs = 0 := by decide
    rw [hH, hF, hC, hloop.2, hsum.2]
    simp

/-- C5 witness: a database with one missing view still opens and closes the
single batch connection around all eleven queries. -/
theorem exporter_single_connection_witness :
    countEv Event.openConn (mainExport envOneMissing) = 1 ∧
    countEv Event.closeConn (mainExport envOneMissing) = 1 ∧
    ((exportLoop envOneMissing VIEWS).2.filter isQuery).length = VIEWS.length := by
  have h := exporter_single_connection envOneMissing rfl rfl
  exact ⟨h.2.1, h.2.2.1, h.2.2.2.1⟩

/-! ### C2 -/

/-- Does the per-view query succeed in the given environment? -/
def succeedsB (env : Env) (w : String) : Bool :=
  match runQuery env w with
  | .ok _ => true
  | .error _ => false

theorem export_view_success (env : Env) (v : String) :
    (export_view_to_csv env v).1 = succeedsB env v := by
  unfold export_view_to_csv succeedsB
  cases runQuery env v with
  | ok t => simp
  | error e => cases e <;> simp

theorem exportLoop_count (env : Env) :
    ∀ vs : List String, (exportLoop env vs).1 = (vs.filter (succeedsB env)).length := by
  intro vs
  induction vs with
  | nil => simp [exportLoop]
  | cons v vs ih =>
    have hs := export_view_success env v
    unfold exportLoop
    cases hb : succeedsB env v
    · rw [hb] at hs
      simp [hs, hb, List.filter_cons, ih]
    · rw [hb] at hs
      simp [hs, hb, List.filter_cons, ih]
      omega

theorem length_filter_of_all {p : String → Bool} :
    ∀ vs : List String, (∀ w ∈ vs, p w = true) → (vs.filter p).length = vs.length := by
  intro vs
  induction vs with
  | nil => intro _; rfl
  | cons a vs ih =>
    intro h
    rw [List.filter_cons]
    simp [h a (List.mem_cons_self a vs), ih (fun w hw => h w (List.mem_cons_of_mem a hw))]

theorem length_filter_all_but_one {p : String → Bool} :
    ∀ (vs : List String) (v : String), vs.Nodup → v ∈ vs → p v = false →
      (∀ w ∈ vs, w ≠ v → p w = true) → (vs.filter p).length = vs.length - 1 := by
  intro vs
  induction vs with
  | nil => intro v _ hm; simp at hm
  | cons a vs ih =>
    intro v hnd hm hpv hall
    rcases List.mem_cons.mp hm with rfl | hmem
    · have hvs : ∀ w ∈ vs, p w = true := by
        intro w hw
        refine hall w (List.mem_cons_of_mem _ hw) ?_
        intro hwv
        subst hwv
        exact (List.nodup_cons.mp hnd).1 hw
      rw [List.filter_cons]
      simp [hpv, length_filter_of_all vs hvs]
    · have hav : a ≠ v := by
        intro hh
        subst hh
        exact (List.nodup_cons.mp hnd).1 hmem
      have ha : p a = true := hall a (List.mem_cons_self a vs) hav
      have hlen : 1 ≤ vs.length := List.length_pos.mpr (List.ne_nil_of_mem hmem)
      rw [List.filter_cons]
      simp only [ha, if_true, List.length_cons]
      rw [ih v (List.nodup_cons.mp hnd).2 hmem hpv
          (fun w hw hwv => hall w (List.mem_cons_of_mem a hw) hwv)]
      omega

theorem runQuery_ok_of_present (env : Env) (w : String) (h1 : env.dbExists = true)
    (hf : env.faulty w = none) (hs : (env.views w).isSome) :
    ∃ t, env.views w = some t ∧ runQuery env w = .ok t := by
  unfold runQuery
  rw [h1]
  cases hv : env.views w with
  | none => rw [hv] at hs; simp at hs
  | some t => exact ⟨t, rfl, by simp [hf]⟩

theorem succeedsB_true_of (env : Env) (w : String) (h1 : env.dbExists = true)
    (hf : env.faulty w = none) (hs : (env.views w).isSome) :
    succeedsB env w = true := by
  obtain ⟨t, _, hq⟩ := runQuery_ok_of_present env w h1 hf hs
  unfold succeedsB
  rw [hq]

theorem runQuery_missing_view (env : Env) (v : String) (h1 : env.dbExists = true)
    (hf : env.faulty v = none) (hm : env.views v = none) :
    runQuery env v = .error (.operational ("no such table: " ++ v)) := by
  unfold runQuery
  rw [h1]
  simp [hf, hm]

theorem succeedsB_false_of_missing (env : Env) (v : String) (h1 : env.dbExists = true)
    (hf : env.faulty v = none) (hm : env.views v = none) :
    succeedsB env v = false := by
  unfold succeedsB
  rw [runQuery_missing_view env v h1 hf hm]

theorem mem_exportLoop_of_mem (env : Env) (e : Event) :
    ∀ (vs : List String) (v : String), v ∈ vs → e ∈ (export_view_to_csv env v).2 →
      e ∈ (exportLoop env vs).2 := by
  intro vs
  induction vs with
  | nil => intro v h; simp at h
  | cons w vs ih =>
    intro v hv he
    have hshape : (exportLoop env (w :: vs)).2 =
        (export_view_to_csv env w).2 ++ (exportLoop env vs).2 := rfl
    rw [hshape]
    rcases List.mem_cons.mp hv with rfl | hmem
    · exact List.mem_append.mpr (Or.inl he)
    · exact List.mem_append.mpr (Or.inr (ih v hmem he))

theorem mem_mainExport_of_loop (env : Env) (h1 : env.dbExists = true)
    (h2 : env.connectFails = false) {e : Event}
    (he : e ∈ (exportLoop env VIEWS).2) : e ∈ mainExport env := by
  rw [mainExport_connected_trace env h1 h2]
  simp [List.mem_append, he]

theorem mem_mainExport_summary (env : Env) (h1 : env.dbExists = true)
    (h2 : env.connectFails = false) {e : Event}
    (he : e ∈ exporterSummary (exportLoop env VIEWS).1) : e ∈ mainExport env := by
  rw [mainExport_connected_trace env h1 h2]
  simp [List.mem_append, List.mem_cons, he]

theorem export_view_writes (env : Env) (v : String) (t : Table)
    (hq : runQuery env v = .ok t) :
    Event.writeCsv ("results/" ++ v ++ ".csv") (to_csv t) ∈ (export_view_to_csv env v).2 := by
  unfold export_view_to_csv
  rw [hq]
  simp

theorem export_view_error_line (env : Env) (v : String) (msg : String)
    (hq : runQuery env v = .error (.operational msg)) :
    Event.printLine ("  [ERROR] Error exporting " ++ v ++ ": View does not exist")
      ∈ (export_view_to_csv env v).2 := by
  unfold export_view_to_csv
  rw [hq]
  simp

/-- C2: if exactly one of the eleven catalog views is absent from an
otherwise valid database, the exporter's success count is 10 of 11, its
trace contains the distinct per-view error line naming the missing view,
every other view's CSV file is still written from its own query result
(the loop continues past the failure), and the summary line reads
`10/11 views exported successfully`. -/
theorem exporter_one_missing_view (env : Env) (v : String)
    (h1 : env.dbExists = true) (h2 : env.connectFails = false)
    (hv : v ∈ VIEWS) (hm : env.views v = none)
    (hf : ∀ w ∈ VIEWS, env.faulty w = none)
    (ho : ∀ w ∈ VIEWS, w ≠ v → (env.views w).isSome) :
    (exportLoop env VIEWS).1 = 10 ∧
    Event.printLine ("  [ERROR] Error exporting " ++ v ++ ": View does not exist")
      ∈ mainExport env ∧
    (∀ w ∈ VIEWS, w ≠ v → ∃ t, env.views w = some t ∧
      Event.writeCsv ("results/" ++ w ++ ".csv") (to_csv t) ∈ mainExport env) ∧
    Event.printLine "\nSummary: 10/11 views exported successfully" ∈ mainExport env := by
  have hnd : VIEWS.Nodup := by decide
  have hcount : (exportLoop env VIEWS).1 = 10 := by
    rw [exportLoop_count]
    rw [length_filter_all_but_one VIEWS v hnd hv
      (succeedsB_false_of_missing env v h1 (hf v hv) hm)
      (fun w hw hwv => succeedsB_true_of env w h1 (hf w hw) (ho w hw hwv))]
    rfl
  refine ⟨hcount, ?_, ?_, ?_⟩
  · exact mem_mainExport_of_loop env h1 h2 (mem_exportLoop_of_mem env _ VIEWS v hv
      (export_view_error_line env v _ (runQuery_missing_view env v h1 (hf v hv) hm)))
  · intro w hw hwv
    obtain ⟨t, hvw, hq⟩ := runQuery_ok_of_present env w h1 (hf w hw) (ho w hw hwv)
    exact ⟨t, hvw, mem_mainExport_of_loop env h1 h2 (mem_exportLoop_of_mem env _ VIEWS w hw
      (export_view_writes env w t hq))⟩
  · have hline : Event.printLine ("\nSummary: " ++ toString (10 : Nat) ++ "/" ++
        toString VIEWS.length ++ " views exported successfully") =
        Event.printLine "\nSummary: 10/11 views exported successfully" := by decide
    have hmem : Event.printLine ("\nSummary: " ++ toString (exportLoop env VIEWS).1 ++ "/" ++
        toString VIEWS.length ++ " views exported successfully")
        ∈ exporterSummary (exportLoop env VIEWS).1 := by
      simp [exporterSummary]
    have hmem2 := mem_mainExport_summary env h1 h2 hmem
    rw [hcount, hline] at hmem2
    exact hmem2

/-- C2 witness: `income_band_churn` missing from an otherwise valid
database. -/
theorem exporter_one_missing_view_witness :
    (exportLoop envOneMissing VIEWS).1 = 10 ∧
    Event.printLine ("  [ERROR] Error exporting " ++ "income_band_churn" ++
      ": View does not exist") ∈ mainExport envOneMissing ∧
    Event.printLine "\nSummary: 10/11 views exported successfully"
      ∈ mainExport envOneMissing := by
  have h := exporter_one_missing_view envOneMissing "income_band_churn" rfl rfl
    (by decide) (by decide) (by decide) (by decide)
  exact ⟨h.1, h.2.1, h.2.2.2⟩

/-! ### C8 -/

/-- The dashboard's full trace when `bank.db` is absent: the pre-`try`
header widgets, then the KPI fetch (`sqlite3.connect` silently creates an
empty database, so the query fails with `no such table` and `load_view`
shows its own error box and returns the empty frame), then the no-data
error box, then `st.stop()`. -/
def absentDbDashboardTrace : List Event :=
  [.titleEvt "🏦 Bank Customer Analytics Dashboard",
   .markdownEvt "---",
   .sidebarHeader "📊 Filters & Options",
   .openConn,
   .query "overall_kpis",
   .errorMsg "Error loading overall_kpis: no such table: overall_kpis",
   .errorMsg "⚠️ No data found. Please ensure views are created in the database.",
   .stopEv]

theorem dashboard_absent_trace (env : Env) (sel : String)
    (h1 : env.dbExists = false) (h2 : env.connectFails = false) :
    (dashboardRun env [] sel).1 = absentDbDashboardTrace := by
  unfold dashboardRun dashboardBody load_view_cached lookupCache load_view runQuery
  simp [h1, h2, Table.isEmpty, Table.emptyTable, absentDbDashboardTrace]

/-- C8 counterexample: with `bank.db` absent, the dashboard displays two
error boxes (the `load_view` failure box and the fatal no-data box), not
exactly one diagnostic. -/
theorem dashboard_absent_two_diagnostics :
    ((dashboardRun envAbsent [] "Churn by Branch").1.filter isErrorBox).length = 2 ∧
    ¬ ((dashboardRun envAbsent [] "Churn by Branch").1.filter isErrorBox).length = 1 := by
  decide

/-- C8 amended: if the database file is absent, the dashboard shows two
diagnostics — the KPI-view load error and then the fatal no-data message —
and halts at `st.stop()` before rendering any panel (no metric, chart or
table event appears in the trace, whose last event is the stop). -/
theorem dashboard_absent_db (env : Env) (sel : String)
    (h1 : env.dbExists = false) (h2 : env.connectFails = false) :
    (dashboardRun env [] sel).1 = absentDbDashboardTrace ∧
    (dashboardRun env [] sel).1.filter isPanel = [] ∧
    ((dashboardRun env [] sel).1.filter isErrorBox).length = 2 ∧
    (dashboardRun env [] sel).1.getLast? = some Event.stopEv := by
  have htr := dashboard_absent_trace env sel h1 h2
  refine ⟨htr, ?_, ?_, ?_⟩ <;> rw [htr] <;> decide

/-- C8 witness. -/
theorem dashboard_absent_db_witness :
    (dashboardRun envAbsent [] "Churn by Branch").1 = absentDbDashboardTrace ∧
    (dashboardRun envAbsent [] "Churn by Branch").1.filter isPanel = [] ∧
    ((dashboardRun envAbsent [] "Churn by Branch").1.filter isErrorBox).length = 2 ∧
    (dashboardRun envAbsent [] "Churn by Branch").1.getLast? = some Event.stopEv :=
  dashboard_absent_db envAbsent "Churn by Branch" rfl rfl

/-! ### C7: CSV round trip -/

/-- Is the input empty or headed by a field separator (comma or newline)? -/
def isSepHead : List Char → Bool
  | [] => true
  | c :: _ => c = ',' || c = '\n'

theorem noSpecial_of_not_needsQuote {s : List Char} (h : needsQuoteL s = false) :
    ∀ c ∈ s, c ≠ ',' ∧ c ≠ '"' ∧ c ≠ '\n' ∧ c ≠ '\r' := by
  intro c hc
  unfold needsQuoteL at h
  rw [List.any_eq_false] at h
  have := h c hc
  simp at this
  tauto

theorem parseUnquotedAux_clean :
    ∀ (cs rest : List Char), (∀ c ∈ cs, c ≠ ',' ∧ c ≠ '\n') → isSepHead rest = true →
      parseUnquotedAux (cs ++ rest) = (cs, rest) := by
  intro cs
  induction cs with
  | nil =>
    intro rest _ hr
    cases rest with
    | nil => rfl
    | cons a t =>
      simp only [isSepHead] at hr
      simp [parseUnquotedAux, hr]
  | cons c cs ih =>
    intro rest hc hr
    have hc0 := hc c (List.mem_cons_self c cs)
    have hrec := ih rest (fun d hd => hc d (List.mem_cons_of_mem c hd)) hr
    simp [parseUnquotedAux, hc0.1, hc0.2, hrec]

theorem not_quote_of_sepHead {a : Char} {t : List Char}
    (hr : isSepHead (a :: t) = true) : a ≠ '"' := by
  intro hh
  subst hh
  simp [isSepHead] at hr

theorem parseQuotedAux_escQ :
    ∀ (cs rest : List Char), isSepHead rest = true →
      parseQuotedAux (escQ cs ++ '"' :: rest) = some (cs, rest) := by
  intro cs
  induction cs with
  | nil =>
    intro rest hr
    cases rest with
    | nil => rfl
    | cons a t =>
      have ha := not_quote_of_sepHead hr
      simp [escQ, parseQuotedAux, ha]
  | cons c cs ih =>
    intro rest hr
    by_cases hc : c = '"'
    · subst hc
      simp [escQ, parseQuotedAux, ih rest hr]
    · have h1 : escQ (c :: cs) = c :: escQ cs := by simp [escQ, hc]
      rw [h1, List.cons_append, parseQuotedAux.eq_def]
      simp [hc, ih rest hr]

theorem parseField_escapeField (f rest : List Char) (hr : isSepHead rest = true) :
    parseField (escapeFieldL f ++ rest) = some (f, rest) := by
  unfold escapeFieldL
  by_cases hq : needsQuoteL f = true
  · simp only [hq, if_true]
    have hsh : ('"' :: (escQ f ++ ['"'])) ++ rest = '"' :: (escQ f ++ '"' :: rest) := by
      simp
    rw [hsh]
    simp [parseField, parseQuotedAux_escQ f rest hr]
  · have hq2 : needsQuoteL f = false := by
      cases h : needsQuoteL f
      · rfl
      · exact absurd h hq
    have hchars := noSpecial_of_not_needsQuote hq2
    simp only [hq2, Bool.false_eq_true, if_false]
    cases f with
    | nil =>
      cases rest with
      | nil => rfl
      | cons a t =>
        have ha := not_quote_of_sepHead hr
        simp only [isSepHead] at hr
        simp [parseField, ha, parseUnquotedAux, hr]
    | cons c f2 =>
      have hc := hchars c (List.mem_cons_self c f2)
      have hclean : ∀ d ∈ c :: f2, d ≠ ',' ∧ d ≠ '\n' := by
        intro d hd
        have := hchars d hd
        exact ⟨this.1, this.2.2.1⟩
      have hun := parseUnquotedAux_clean (c :: f2) rest hclean hr
      simp only [List.cons_append]
      simp [parseField, hc.2.1]
      rw [show c :: (f2 ++ rest) = (c :: f2) ++ rest from rfl, hun]

theorem parseRecordAux_render :
    ∀ (fs : List (List Char)) (f : List Char) (fuel : Nat) (r : List Char),
      fs.length + 1 ≤ fuel →
      parseRecordAux fuel (renderRecordL (f :: fs) ++ '\n' :: r) = some (f :: fs, r) := by
  intro fs
  induction fs with
  | nil =>
    intro f fuel r hfuel
    cases fuel with
    | zero => omega
    | succ n =>
      show parseRecordAux (n + 1) (escapeFieldL f ++ '\n' :: r) = _
      unfold parseRecordAux
      rw [parseField_escapeField f ('\n' :: r) (by simp [isSepHead])]
      simp
  | cons g fs ih =>
    intro f fuel r hfuel
    cases fuel with
    | zero => omega
    | succ n =>
      have hshape : renderRecordL (f :: g :: fs) ++ '\n' :: r =
          escapeFieldL f ++ ',' :: (renderRecordL (g :: fs) ++ '\n' :: r) := by
        simp [renderRecordL]
      rw [hshape]
      unfold parseRecordAux
      rw [parseField_escapeField f (',' :: (renderRecordL (g :: fs) ++ '\n' :: r))
        (by simp [isSepHead])]
      simp [ih g n r (by simp at hfuel; omega)]

theorem renderRecordL_length : ∀ (fs : List (List Char)) (f : List Char),
    fs.length ≤ (renderRecordL (f :: fs)).length := by
  intro fs
  induction fs with
  | nil => intro f; simp
  | cons g fs ih =>
    intro f
    have := ih g
    simp only [renderRecordL, List.length_append, List.length_cons]
    simp only [List.length_cons] at this ⊢
    omega

theorem renderFileL_length : ∀ recs : List (List (List Char)),
    recs.length ≤ (renderFileL recs).length := by
  intro recs
  induction recs with
  | nil => simp [renderFileL]
  | cons r rs ih =>
    simp only [renderFileL, List.length_append, List.length_cons]
    omega

theorem parseRecsAux_succ_of_ne (n : Nat) (cs : List Char) (h : cs ≠ []) :
    parseRecsAux (n + 1) cs =
      (match parseRecordAux (cs.length + 1) cs with
       | none => none
       | some (r, rest) => (parseRecsAux n rest).map (fun rs => r :: rs)) := by
  cases cs with
  | nil => exact absurd rfl h
  | cons a b => rfl

theorem parseRecsAux_render :
    ∀ (recs : List (List (List Char))) (fuel : Nat),
      (∀ rec ∈ recs, rec ≠ []) → recs.length ≤ fuel →
      parseRecsAux fuel (renderFileL recs) = some recs := by
  intro recs
  induction recs with
  | nil =>
    intro fuel _ _
    cases fuel <;> rfl
  | cons rec recs ih =>
    intro fuel hne hfuel
    obtain ⟨f, fs, rfl⟩ : ∃ f fs, rec = f :: fs := by
      cases rec with
      | nil => exact absurd rfl (hne [] (List.mem_cons_self _ _))
      | cons f fs => exact ⟨f, fs, rfl⟩
    cases fuel with
    | zero => simp at hfuel
    | succ n =>
      have hinput : renderFileL ((f :: fs) :: recs) =
          renderRecordL (f :: fs) ++ '\n' :: renderFileL recs := rfl
      have hne2 : renderRecordL (f :: fs) ++ '\n' :: renderFileL recs ≠ [] := by
        intro hh
        have := congrArg List.length hh
        simp at this
      rw [hinput, parseRecsAux_succ_of_ne n _ hne2]
      have hflen : fs.length + 1 ≤
          (renderRecordL (f :: fs) ++ '\n' :: renderFileL recs).length + 1 := by
        have := renderRecordL_length fs f
        simp only [List.length_append, List.length_cons]
        omega
      rw [parseRecordAux_render fs f _ (renderFileL recs) hflen]
      simp [ih n (fun d hd => hne d (List.mem_cons_of_mem _ hd)) (by simp at hfuel; omega)]

/-- Modelled from the spec: reading the exported file back recovers the
table exactly, for any nonempty header and rows that are not zero-width
(a SQL view result always has at least one column and rectangular rows). -/
theorem read_csv_to_csv (t : Table) (hc : t.cols ≠ [])
    (hr : ∀ r ∈ t.rows, r ≠ []) :
    read_csv (to_csv t) = some t := by
  obtain ⟨cols, rows⟩ := t
  simp only [to_csv, read_csv]
  have hne : ∀ rec ∈ (cols.map String.data) :: rows.map (fun r => r.map String.data),
      rec ≠ [] := by
    intro rec hrec
    rcases List.mem_cons.mp hrec with rfl | hmem
    · simpa using hc
    · obtain ⟨r, hrm, rfl⟩ := List.mem_map.mp hmem
      simpa using hr r hrm
  have hfuel : ((cols.map String.data) :: rows.map (fun r => r.map String.data)).length ≤
      (renderFileL ((cols.map String.data) ::
        rows.map (fun r => r.map String.data))).length + 1 :=
    Nat.le_succ_of_le (renderFileL_length _)
  rw [parseRecsAux_render _ _ hne hfuel]
  have hcomp : (String.mk ∘ String.data) = id := funext string_mk_data
  simp [List.map_map, hcomp]

/-- C7: for every catalog view whose query succeeds with a well-formed
table (at least one column, rectangular rows), directly querying the view
through the dashboard reader yields that table, the exporter writes
exactly its `to_csv` serialization (header row = column names, rows in
order, no index column) to `results/<view>.csv`, and reading the written
file back recovers a table identical to the query result. -/
theorem export_roundtrip (env : Env) (v : String) (t : Table)
    (_hv : v ∈ VIEWS) (hq : runQuery env v = .ok t) (h2 : env.connectFails = false)
    (hc : t.cols ≠ []) (hr : ∀ r ∈ t.rows, r.length = t.cols.length) :
    (load_view env v).1 = t ∧
    Event.writeCsv ("results/" ++ v ++ ".csv") (to_csv t) ∈ (export_view_to_csv env v).2 ∧
    read_csv (to_csv t) = some t := by
  refine ⟨?_, export_view_writes env v t hq, read_csv_to_csv t hc ?_⟩
  · simp [load_view, h2, hq]
  · intro r hrr hnil
    have hlen := hr r hrr
    rw [hnil] at hlen
    simp at hlen
    exact hc (List.length_eq_zero.mp hlen.symm)

/-- A concrete table exercising separators and quotes in cells. -/
def tableRT : Table := ⟨["customer_id", "note"], [["1", "a,b"], ["2", "say \"hi\""]]⟩

/-- A database holding only `high_value_customers`, mapped to `tableRT`. -/
def envRT : Env :=
  { dbExists := true, connectFails := false, connectMsg := "",
    views := fun w => if w = "high_value_customers" then some tableRT else none,
    faulty := fun _ => none }

/-- C7 witness. -/
theorem export_roundtrip_witness :
    (load_view envRT "high_value_customers").1 = tableRT ∧
    Event.writeCsv ("results/" ++ "high_value_customers" ++ ".csv") (to_csv tableRT)
      ∈ (export_view_to_csv envRT "high_value_customers").2 ∧
    read_csv (to_csv tableRT) = some tableRT :=
  export_roundtrip envRT "high_value_customers" tableRT (by decide) rfl rfl
    (by decide) (by decide)
